import Mathlib

/-!
Shallow embedding of the esp32-tsl2561 driver (DavidAntliff/esp32-tsl2561),
translated from src/tsl2561.c and src/include/tsl2561.h.

Modelling conventions:
* `esp_err_t` is `Int` with `ESP_OK = 0` and `ESP_FAIL = -1`.
* C enum fields (`tsl2561_device_type_t`, `tsl2561_integration_time_t`,
  `tsl2561_gain_t`) are `Nat` holding the enum's numeric value, so the
  `default:` branches of the C switches stay reachable, exactly as in C.
* `uint32_t` arithmetic is `Nat` reduced `% 2^32` wherever the C expression
  can wrap; `uint16_t` values are `Nat` reduced `% 2^16`.
* The SMBus transport (an external collaborator) is an oracle `SmbusModel`
  of pure functions from a command byte to the transport's returned error
  code and data.  Within each driver call no two transport transactions use
  identical arguments, so a pure oracle distinguishes every transaction.
* Side effects on the bus and the `vTaskDelay` call are additionally
  recorded in an `Event` trace so that ordering/absence of transactions is
  observable.  Logging (`ESP_LOG*`) has no modelled effect.
* The `tsl2561_info_t *` pointer is `Option Tsl2561Info` (`none` = NULL);
  the stored `smbus_info` pointer is modelled by passing the bus oracle to
  each call.
-/

namespace Tsl2561

/-- esp_err.h: success code. -/
def ESP_OK : Int := 0

/-- esp_err.h: generic failure code. -/
def ESP_FAIL : Int := -1

-- Register addresses (tsl2561.c lines 45-56)
def REG_CONTROL : Nat := 0x00
def REG_TIMING : Nat := 0x01
def REG_ID : Nat := 0x0A
def REG_DATA0LOW : Nat := 0x0C
def REG_DATA1LOW : Nat := 0x0E

-- Command-value bits (tsl2561.c lines 59-62)
def SMB_WORD : Nat := 0x20
def SMB_COMMAND : Nat := 0x80

def TSL2561_CONTROL_POWER_UP : Nat := 0x03
def TSL2561_CONTROL_POWER_DOWN : Nat := 0x00

-- Fixed-point scaling (tsl2561.c lines 71-76)
def CH_SCALE : Nat := 10       -- scale channel values by 2^10
def CH_SCALE_TINT0 : Nat := 0x7517  -- 322/11 * 2^CH_SCALE
def CH_SCALE_TINT1 : Nat := 0x0FE7  -- 322/81 * 2^CH_SCALE
def RATIO_SCALE : Nat := 9     -- scale ratio by 2^9
def LUX_SCALE : Nat := 14      -- scale by 2^14

/-- 2^32, the modulus of `uint32_t` arithmetic. -/
def UINT32_MOD : Nat := 4294967296

-- T, FN, and CL package coefficients (tsl2561.c lines 79-102)
def TSL2561_K1T : Nat := 0x0040
def TSL2561_B1T : Nat := 0x01F2
def TSL2561_M1T : Nat := 0x01BE
def TSL2561_K2T : Nat := 0x0080
def TSL2561_B2T : Nat := 0x0214
def TSL2561_M2T : Nat := 0x02D1
def TSL2561_K3T : Nat := 0x00C0
def TSL2561_B3T : Nat := 0x023F
def TSL2561_M3T : Nat := 0x037B
def TSL2561_K4T : Nat := 0x0100
def TSL2561_B4T : Nat := 0x0270
def TSL2561_M4T : Nat := 0x03FE
def TSL2561_K5T : Nat := 0x0138
def TSL2561_B5T : Nat := 0x016F
def TSL2561_M5T : Nat := 0x01FC
def TSL2561_K6T : Nat := 0x019A
def TSL2561_B6T : Nat := 0x00D2
def TSL2561_M6T : Nat := 0x00FB
def TSL2561_K7T : Nat := 0x029A
def TSL2561_B7T : Nat := 0x0018
def TSL2561_M7T : Nat := 0x0012
def TSL2561_K8T : Nat := 0x029A
def TSL2561_B8T : Nat := 0x0000
def TSL2561_M8T : Nat := 0x0000

-- CS package coefficients (tsl2561.c lines 105-128)
def TSL2561_K1C : Nat := 0x0043
def TSL2561_B1C : Nat := 0x0204
def TSL2561_M1C : Nat := 0x01AD
def TSL2561_K2C : Nat := 0x0085
def TSL2561_B2C : Nat := 0x0228
def TSL2561_M2C : Nat := 0x02C1
def TSL2561_K3C : Nat := 0x00C8
def TSL2561_B3C : Nat := 0x0253
def TSL2561_M3C : Nat := 0x0363
def TSL2561_K4C : Nat := 0x010A
def TSL2561_B4C : Nat := 0x0282
def TSL2561_M4C : Nat := 0x03DF
def TSL2561_K5C : Nat := 0x014D
def TSL2561_B5C : Nat := 0x0177
def TSL2561_M5C : Nat := 0x01DD
def TSL2561_K6C : Nat := 0x019A
def TSL2561_B6C : Nat := 0x0101
def TSL2561_M6C : Nat := 0x0127
def TSL2561_K7C : Nat := 0x029A
def TSL2561_B7C : Nat := 0x0037
def TSL2561_M7C : Nat := 0x002B
def TSL2561_K8C : Nat := 0x029A
def TSL2561_B8C : Nat := 0x0000
def TSL2561_M8C : Nat := 0x0000

-- tsl2561_device_type_t (tsl2561.h lines 49-56)
def TSL2561_DEVICE_TYPE_INVALID : Nat := 0b1111
def TSL2561_DEVICE_TYPE_TSL2560CS : Nat := 0b0000
def TSL2561_DEVICE_TYPE_TSL2561CS : Nat := 0b0001
def TSL2561_DEVICE_TYPE_TSL2560T_FN_CL : Nat := 0b0100
def TSL2561_DEVICE_TYPE_TSL2561T_FN_CL : Nat := 0b0101

-- tsl2561_integration_time_t (tsl2561.h lines 62-67)
def TSL2561_INTEGRATION_TIME_13MS : Nat := 0x00
def TSL2561_INTEGRATION_TIME_101MS : Nat := 0x01
def TSL2561_INTEGRATION_TIME_402MS : Nat := 0x02

-- tsl2561_gain_t (tsl2561.h lines 72-76)
def TSL2561_GAIN_1X : Nat := 0x00
def TSL2561_GAIN_16X : Nat := 0x10

-- Device defaults (tsl2561.c lines 68-69)
def DEFAULT_INTEGRATION_TIME : Nat := TSL2561_INTEGRATION_TIME_402MS
def DEFAULT_GAIN : Nat := TSL2561_GAIN_1X

/-- `tsl2561_info_t` (tsl2561.h lines 87-95).  The `smbus_info` pointer field
is modelled by passing the bus oracle to each call. -/
structure Tsl2561Info where
  init : Bool
  powered : Bool
  device_type : Nat
  integration_time : Nat
  gain : Nat
deriving DecidableEq

/-- One observable external effect of a driver call. -/
inductive Event where
  | wByte (reg val : Nat)    -- smbus_write_byte
  | rByte (reg : Nat)        -- smbus_read_byte
  | rWord (reg : Nat)        -- smbus_read_word
  | taskDelay (ticks : Nat)  -- vTaskDelay
deriving DecidableEq

/-- Oracle for the SMBus transport collaborator: each transaction's returned
error code (and data for reads, reduced to a byte / 16-bit word below). -/
structure SmbusModel where
  write_byte : Nat → Nat → Int
  read_byte : Nat → Int × Nat
  read_word : Nat → Int × Nat

/-- Result of a driver call that mutates the session. -/
structure StepResult where
  err : Int
  info : Option Tsl2561Info
  events : List Event
deriving DecidableEq

/-- Result of `tsl2561_device_id`: the two out-parameters are written only on
success. -/
structure IdResult where
  err : Int
  outs : Option (Nat × Nat)   -- (device, revision)
  events : List Event
deriving DecidableEq

/-- Result of `tsl2561_read`: the two out-parameters (visible, infrared) are
written only on success. -/
structure ReadResult where
  err : Int
  info : Option Tsl2561Info
  outs : Option (Nat × Nat)
  events : List Event
deriving DecidableEq

/-- `_is_init` (tsl2561.c lines 130-149); the two ESP_LOGE paths have no
modelled effect. -/
def _is_init (oi : Option Tsl2561Info) : Bool :=
  match oi with
  | some info => info.init
  | none => false

/-- `_check_device_id` (tsl2561.c lines 151-171): `name != NULL` after the
switch on the recognised device types. -/
def _check_device_id (device : Nat) : Bool :=
  let name : Option String :=
    if device = TSL2561_DEVICE_TYPE_TSL2560CS then some "0CS"
    else if device = TSL2561_DEVICE_TYPE_TSL2561CS then some "1CS"
    else if device = TSL2561_DEVICE_TYPE_TSL2560T_FN_CL then some "0T/FN/CL"
    else if device = TSL2561_DEVICE_TYPE_TSL2561T_FN_CL then some "1T/FN/CL"
    else none
  name.isSome

/-- `_power_up` (tsl2561.c lines 173-192). -/
def _power_up (bus : SmbusModel) (oi : Option Tsl2561Info) : StepResult :=
  match oi with
  | none => ⟨ESP_FAIL, none, []⟩
  | some info =>
    if !info.powered then
      let e := bus.write_byte (REG_CONTROL ||| SMB_COMMAND) TSL2561_CONTROL_POWER_UP
      if e = ESP_OK then
        ⟨e, some { info with powered := true },
         [Event.wByte (REG_CONTROL ||| SMB_COMMAND) TSL2561_CONTROL_POWER_UP]⟩
      else
        ⟨e, some info,
         [Event.wByte (REG_CONTROL ||| SMB_COMMAND) TSL2561_CONTROL_POWER_UP]⟩
    else
      ⟨ESP_OK, some info, []⟩  -- "Device already powered" -- not an error

/-- `_power_down` (tsl2561.c lines 194-213). -/
def _power_down (bus : SmbusModel) (oi : Option Tsl2561Info) : StepResult :=
  match oi with
  | none => ⟨ESP_FAIL, none, []⟩
  | some info =>
    if info.powered then
      let e := bus.write_byte (REG_CONTROL ||| SMB_COMMAND) TSL2561_CONTROL_POWER_DOWN
      if e = ESP_OK then
        ⟨e, some { info with powered := false },
         [Event.wByte (REG_CONTROL ||| SMB_COMMAND) TSL2561_CONTROL_POWER_DOWN]⟩
      else
        ⟨e, some info,
         [Event.wByte (REG_CONTROL ||| SMB_COMMAND) TSL2561_CONTROL_POWER_DOWN]⟩
    else
      ⟨ESP_OK, some info, []⟩  -- "Device not powered" -- not an error

/-- static `_set_integration_time_and_gain` (tsl2561.c lines 216-228);
assumes the device is already powered up. -/
def _set_integration_time_and_gain (bus : SmbusModel) (oi : Option Tsl2561Info)
    (integration_time gain : Nat) : StepResult :=
  match oi with
  | none => ⟨ESP_FAIL, none, []⟩
  | some info =>
    if info.powered then
      let e := bus.write_byte (REG_TIMING ||| SMB_COMMAND) (integration_time ||| gain)
      if e = ESP_OK then
        ⟨e, some { info with integration_time := integration_time, gain := gain },
         [Event.wByte (REG_TIMING ||| SMB_COMMAND) (integration_time ||| gain)]⟩
      else
        ⟨e, some info, [Event.wByte (REG_TIMING ||| SMB_COMMAND) (integration_time ||| gain)]⟩
    else
      ⟨ESP_FAIL, some info, []⟩

/-- `tsl2561_device_id` (tsl2561.c lines 300-318).  The non-NULL checks on the
`device`/`revision` out-pointers always pass in this model. -/
def tsl2561_device_id (bus : SmbusModel) (oi : Option Tsl2561Info) : IdResult :=
  if _is_init oi then
    let r := bus.read_byte (REG_ID ||| SMB_COMMAND)
    let id := r.2 % 256   -- uint8_t out-parameter of smbus_read_byte
    if r.1 = ESP_OK then
      ⟨r.1, some ((id >>> 4) &&& 0x0f, id &&& 0x0f), [Event.rByte (REG_ID ||| SMB_COMMAND)]⟩
    else
      ⟨r.1, none, [Event.rByte (REG_ID ||| SMB_COMMAND)]⟩
  else
    ⟨ESP_FAIL, none, []⟩

/-- `tsl2561_init` (tsl2561.c lines 261-298).  Note (src line 288): in the
branch where `_check_device_id` fails, the C code only logs "Unsupported
device detected"; `err` keeps the `ESP_OK` it received from
`tsl2561_device_id` and is returned unchanged. -/
def tsl2561_init (bus : SmbusModel) (oi : Option Tsl2561Info) : StepResult :=
  match oi with
  | none => ⟨ESP_FAIL, none, []⟩
  | some info0 =>
    let info1 : Tsl2561Info :=
      { info0 with powered := false, integration_time := DEFAULT_INTEGRATION_TIME,
                   gain := DEFAULT_GAIN, device_type := TSL2561_DEVICE_TYPE_INVALID,
                   init := true }
    let r := tsl2561_device_id bus (some info1)
    let device_type := match r.outs with
      | some dr => dr.1
      | none => TSL2561_DEVICE_TYPE_INVALID
    if r.err = ESP_OK then
      if _check_device_id device_type then
        ⟨ESP_OK, some { info1 with device_type := device_type }, r.events⟩
      else
        ⟨r.err, some info1, r.events⟩   -- err not reassigned at src line 288
    else
      ⟨r.err, some info1, r.events⟩

/-- The delay (milliseconds) selected by the switch in `tsl2561_read`
(tsl2561.c lines 327-345); the `default:` case logs a warning and falls
through to the 402 ms case. -/
def readDelayMs (integration_time : Nat) : Nat :=
  if integration_time = TSL2561_INTEGRATION_TIME_13MS then 15
  else if integration_time = TSL2561_INTEGRATION_TIME_101MS then 120
  else 450

/-- `tsl2561_read` (tsl2561.c lines 320-364).  `tick_ms` models
`portTICK_RATE_MS`; the out-parameters are written only when the whole
sequence, power-down included, succeeded. -/
def tsl2561_read (bus : SmbusModel) (tick_ms : Nat) (oi : Option Tsl2561Info) : ReadResult :=
  if _is_init oi then
    let pu := _power_up bus oi
    if pu.err = ESP_OK then
      match pu.info with
      | some info =>
        let delay := readDelayMs info.integration_time
        let ticks := (delay - 1) / tick_ms + 1
        let r0 := bus.read_word (REG_DATA0LOW ||| SMB_COMMAND ||| SMB_WORD)
        let ev0 := [Event.taskDelay ticks, Event.rWord (REG_DATA0LOW ||| SMB_COMMAND ||| SMB_WORD)]
        if r0.1 = ESP_OK then
          let ch0 := r0.2 % 65536
          let r1 := bus.read_word (REG_DATA1LOW ||| SMB_COMMAND ||| SMB_WORD)
          let ev1 := ev0 ++ [Event.rWord (REG_DATA1LOW ||| SMB_COMMAND ||| SMB_WORD)]
          if r1.1 = ESP_OK then
            let ch1 := r1.2 % 65536
            let pd := _power_down bus (some info)
            -- *visible = ch0 - ch1 (uint16_t wraparound), *infrared = ch1,
            -- written only when the power-down returned ESP_OK
            let outs := if pd.err = ESP_OK then some ((ch0 + 65536 - ch1) % 65536, ch1) else none
            ⟨pd.err, pd.info, outs, pu.events ++ ev1 ++ pd.events⟩
          else
            ⟨r1.1, some info, none, pu.events ++ ev1⟩
        else
          ⟨r0.1, some info, none, pu.events ++ ev0⟩
      | none => ⟨ESP_FAIL, none, none, pu.events⟩  -- unreachable: power-up success keeps the session
    else
      ⟨pu.err, pu.info, none, pu.events⟩
  else
    ⟨ESP_FAIL, oi, none, []⟩

/-- `tsl2561_set_integration_time_and_gain` (tsl2561.c lines 366-384). -/
def tsl2561_set_integration_time_and_gain (bus : SmbusModel) (oi : Option Tsl2561Info)
    (integration_time gain : Nat) : StepResult :=
  if _is_init oi then
    let pu := _power_up bus oi
    if pu.err = ESP_OK then
      let st := _set_integration_time_and_gain bus pu.info integration_time gain
      -- on success the fields are (redundantly) assigned again, src lines 375-376
      let st2 : StepResult :=
        if st.err = ESP_OK then
          { st with info := st.info.map fun info =>
              { info with integration_time := integration_time, gain := gain } }
        else st
      let pd := _power_down bus st2.info
      ⟨if pd.err ≠ ESP_OK then pd.err else st2.err, pd.info,
       pu.events ++ st2.events ++ pd.events⟩
    else
      ⟨pu.err, pu.info, pu.events⟩
  else
    ⟨ESP_FAIL, oi, []⟩

/-- The channel-scaling constant of `tsl2561_compute_lux`
(tsl2561.c lines 391-410): switch on the integration time, then
`scale <<= 4` when the gain is 1x. -/
def scaleFor (integration_time gain : Nat) : Nat :=
  let scale :=
    if integration_time = TSL2561_INTEGRATION_TIME_13MS then CH_SCALE_TINT0
    else if integration_time = TSL2561_INTEGRATION_TIME_101MS then CH_SCALE_TINT1
    else 1 <<< CH_SCALE
  if gain = TSL2561_GAIN_1X then (scale <<< 4) % UINT32_MOD else scale

/-- `ratio1` (tsl2561.c lines 416-422): channel1/channel0 with 9+1 fractional
bits, defined as 0 when channel0 = 0 to protect against divide by zero. -/
def ratio1Of (channel0 channel1 : Nat) : Nat :=
  if channel0 ≠ 0 then ((channel1 <<< (RATIO_SCALE + 1)) % UINT32_MOD) / channel0 else 0

/-- `ratio` (tsl2561.c line 425): round by adding 1 and shifting right 1
(uint32_t increment). -/
def roundedRatioOf (channel0 channel1 : Nat) : Nat :=
  ((ratio1Of channel0 channel1 + 1) % UINT32_MOD) >>> 1

/-- The `case 1:` (chipscale) branch of the device-type switch
(tsl2561.c lines 432-450); note the 5th-7th thresholds use the
`TSL2561_K5T`/`K6T`/`K7T` constants. -/
def csLookup (ratio : Nat) : Nat × Nat :=
  if ratio ≤ TSL2561_K1C then (TSL2561_B1C, TSL2561_M1C)
  else if ratio ≤ TSL2561_K2C then (TSL2561_B2C, TSL2561_M2C)
  else if ratio ≤ TSL2561_K3C then (TSL2561_B3C, TSL2561_M3C)
  else if ratio ≤ TSL2561_K4C then (TSL2561_B4C, TSL2561_M4C)
  else if ratio ≤ TSL2561_K5T then (TSL2561_B5C, TSL2561_M5C)
  else if ratio ≤ TSL2561_K6T then (TSL2561_B6C, TSL2561_M6C)
  else if ratio ≤ TSL2561_K7T then (TSL2561_B7C, TSL2561_M7C)
  else if ratio > TSL2561_K8C then (TSL2561_B8C, TSL2561_M8C)
  else (0, 0)   -- b, m keep their 0 initialisation when no branch is taken

/-- The `case 0: default:` branch of the device-type switch
(tsl2561.c lines 452-471). -/
def tLookup (ratio : Nat) : Nat × Nat :=
  if ratio ≤ TSL2561_K1T then (TSL2561_B1T, TSL2561_M1T)
  else if ratio ≤ TSL2561_K2T then (TSL2561_B2T, TSL2561_M2T)
  else if ratio ≤ TSL2561_K3T then (TSL2561_B3T, TSL2561_M3T)
  else if ratio ≤ TSL2561_K4T then (TSL2561_B4T, TSL2561_M4T)
  else if ratio ≤ TSL2561_K5T then (TSL2561_B5T, TSL2561_M5T)
  else if ratio ≤ TSL2561_K6T then (TSL2561_B6T, TSL2561_M6T)
  else if ratio ≤ TSL2561_K7T then (TSL2561_B7T, TSL2561_M7T)
  else if ratio > TSL2561_K8T then (TSL2561_B8T, TSL2561_M8T)
  else (0, 0)

/-- `switch (tsl2561_info->device_type)` (tsl2561.c lines 430-472): the pair
`(b, m)` selected from the rounded ratio. -/
def selectBM (device_type ratio : Nat) : Nat × Nat :=
  match device_type with
  | 1 => csLookup ratio
  | _ => tLookup ratio   -- case 0: and default:

/-- The tail of `tsl2561_compute_lux` after `(b, m)` are chosen
(tsl2561.c lines 474-486), in uint32_t arithmetic. -/
def finishLux (channel0 channel1 b m : Nat) : Nat :=
  let cb := (channel0 * b) % UINT32_MOD
  let cm := (channel1 * m) % UINT32_MOD
  let temp := (cb + (UINT32_MOD - cm)) % UINT32_MOD   -- uint32 subtraction cb - cm
  let temp := if cm > cb then 0 else temp             -- prevent negative lux values
  let temp := (temp + (1 <<< (LUX_SCALE - 1))) % UINT32_MOD  -- round lsb
  temp >>> LUX_SCALE                                  -- strip off fractional portion

/-- `tsl2561_compute_lux` from the scaled channel values down
(tsl2561.c lines 416-486). -/
def luxTail (device_type channel0 channel1 : Nat) : Nat :=
  let ratio := roundedRatioOf channel0 channel1
  let bm := selectBM device_type ratio
  finishLux channel0 channel1 bm.1 bm.2

/-- `tsl2561_compute_lux` (tsl2561.c lines 386-490). -/
def tsl2561_compute_lux (oi : Option Tsl2561Info) (visible infrared : Nat) : Nat :=
  if _is_init oi then
    match oi with
    | some info =>
      let scale := scaleFor info.integration_time info.gain
      let channel0 := (((visible + infrared) * scale) % UINT32_MOD) >>> CH_SCALE
      let channel1 := ((infrared * scale) % UINT32_MOD) >>> CH_SCALE
      luxTail info.device_type channel0 channel1
    | none => 0
  else 0   -- lux keeps its 0 initialisation

/-- The four multiply steps of `tsl2561_compute_lux` — the channel-scaling
products `(visible + infrared) * scale` and `infrared * scale`
(src lines 413-414) and the coefficient products `channel0 * b` and
`channel1 * m` (src lines 474-477) — computed without 32-bit truncation,
each required to fit below 2^32. -/
def multipliesFit (info : Tsl2561Info) (visible infrared : Nat) : Prop :=
  let scale := scaleFor info.integration_time info.gain
  let channel0 := (((visible + infrared) * scale) % UINT32_MOD) >>> CH_SCALE
  let channel1 := ((infrared * scale) % UINT32_MOD) >>> CH_SCALE
  let bm := selectBM info.device_type (roundedRatioOf channel0 channel1)
  (visible + infrared) * scale < UINT32_MOD ∧
  infrared * scale < UINT32_MOD ∧
  channel0 * bm.1 < UINT32_MOD ∧
  channel1 * bm.2 < UINT32_MOD

instance (info : Tsl2561Info) (visible infrared : Nat) :
    Decidable (multipliesFit info visible infrared) := by
  unfold multipliesFit
  infer_instance

/-- The channel-scaling constant as the spec describes it (§4.2 steps 1-2):
the precomputed ratio 0x7517 for the short setting, 0x0FE7 for the medium
setting, unity shifted by the fixed scale factor for the long or any
unrecognized setting, then left-shifted by 4 exactly when the gain is the
1x setting.  Stated independently of `scaleFor` so the code can be compared
against the spec's formula. -/
def specChannelScale (integration_time gain : Nat) : Nat :=
  let scale :=
    if integration_time = TSL2561_INTEGRATION_TIME_13MS then 0x7517
    else if integration_time = TSL2561_INTEGRATION_TIME_101MS then 0x0FE7
    else 1 <<< 10
  if gain = TSL2561_GAIN_1X then scale <<< 4 else scale

/-! ### Concrete fixtures used by witnesses and counterexamples -/

/-- A transport whose identification read succeeds with id byte 0x2A
(package field 0b0010, revision 0b1010) and whose writes fail. -/
def busC1 : SmbusModel := ⟨fun _ _ => ESP_FAIL, fun _ => (ESP_OK, 0x2A), fun _ => (ESP_FAIL, 0)⟩

/-- A freshly allocated, zeroed session (`tsl2561_malloc` + `memset`). -/
def infoFresh : Tsl2561Info := ⟨false, false, 0, 0, 0⟩

/-- A transport on which every transaction succeeds. -/
def busAllOK : SmbusModel := ⟨fun _ _ => ESP_OK, fun _ => (ESP_OK, 0x50), fun _ => (ESP_OK, 1000)⟩

/-- A transport on which every transaction fails. -/
def busAllFail : SmbusModel := ⟨fun _ _ => ESP_FAIL, fun _ => (ESP_FAIL, 0), fun _ => (ESP_FAIL, 0)⟩

/-- An initialized, unpowered session at the post-`tsl2561_init` defaults
(invalid device type, 402 ms, 1x gain). -/
def infoReady : Tsl2561Info :=
  ⟨true, false, TSL2561_DEVICE_TYPE_INVALID, TSL2561_INTEGRATION_TIME_402MS, TSL2561_GAIN_1X⟩

/-- An initialized session of a recognized non-chipscale type, 402 ms, 16x. -/
def infoReadyT : Tsl2561Info :=
  ⟨true, false, TSL2561_DEVICE_TYPE_TSL2561T_FN_CL, TSL2561_INTEGRATION_TIME_402MS, TSL2561_GAIN_16X⟩

end Tsl2561

namespace Tsl2561

/-! ### Helper lemmas -/

/-- Whenever `_power_down` reports success, the resulting session (if any) has
`powered = false`: either the control write succeeded and cleared the flag, or
the device was already unpowered. -/
theorem power_down_ok_unpowered (bus : SmbusModel) (oi : Option Tsl2561Info)
    (i2 : Tsl2561Info) (he : (_power_down bus oi).err = ESP_OK)
    (hi : (_power_down bus oi).info = some i2) : i2.powered = false := by
  match oi with
  | none => simp [_power_down, ESP_FAIL, ESP_OK] at he
  | some info =>
    by_cases hp : info.powered
    · by_cases hw : bus.write_byte (REG_CONTROL ||| SMB_COMMAND) TSL2561_CONTROL_POWER_DOWN = ESP_OK
      · simp [_power_down, hp, hw] at hi
        simp [← hi]
      · simp [_power_down, hp, hw] at he
    · simp [_power_down, hp] at hi
      simp [← hi, hp]

/-- Every coefficient pair the device-type switch can select is bounded by
the largest table entries: `b ≤ 0x0282` (`TSL2561_B4C`) and `m ≤ 0x03FE`
(`TSL2561_M4T`). -/
theorem selectBM_le (device_type ratio : Nat) :
    (selectBM device_type ratio).1 ≤ 0x0282 ∧ (selectBM device_type ratio).2 ≤ 0x03FE := by
  have hcs : (csLookup ratio).1 ≤ 0x0282 ∧ (csLookup ratio).2 ≤ 0x03FE := by
    simp only [csLookup]
    split_ifs <;> exact ⟨by decide, by decide⟩
  have ht : (tLookup ratio).1 ≤ 0x0282 ∧ (tLookup ratio).2 ≤ 0x03FE := by
    simp only [tLookup]
    split_ifs <;> exact ⟨by decide, by decide⟩
  match device_type with
  | 0 => exact ht
  | 1 => exact hcs
  | (n + 2) => exact ht

/-- For `1 ≤ d` and `0 < t`, the C expression `(d - 1) / t + 1` is the
ceiling of `d / t`, and `t` ticks of that count cover at least `d`. -/
theorem ceil_div_helper (d t : Nat) (ht : 0 < t) (hd : 1 ≤ d) :
    (d - 1) / t + 1 = (d + t - 1) / t ∧ d ≤ ((d - 1) / t + 1) * t := by
  constructor
  · have hrw : d + t - 1 = (d - 1) + t := by omega
    rw [hrw, Nat.add_div_right _ ht]
  · have hdm := Nat.div_add_mod (d - 1) t
    have hml : (d - 1) % t < t := Nat.mod_lt _ ht
    have h1 : d - 1 + 1 = d := by omega
    have hexp : ((d - 1) / t + 1) * t = t * ((d - 1) / t) + t := by ring
    rw [hexp]
    linarith

/-! ### Claim theorems -/

/-- Claim C1 (evaluation at the failing input): on a session pointer bound to
a transport whose identification read succeeds with package-type field 0b0010
(not one of the four recognized encodings), `tsl2561_init` leaves the session
marked initialized with `device_type` at the invalid sentinel, but returns
`ESP_OK` — success, not an "unsupported device" error — because the C code
only logs the unsupported-device condition without changing `err`
(src/tsl2561.c line 288). -/
theorem c1_init_unrecognized_returns_ok :
    (tsl2561_init busC1 (some infoFresh)).err = ESP_OK ∧
    (tsl2561_init busC1 (some infoFresh)).info =
      some ⟨true, false, TSL2561_DEVICE_TYPE_INVALID, TSL2561_INTEGRATION_TIME_402MS,
            TSL2561_GAIN_1X⟩ :=
  ⟨by decide, by decide⟩

/-- Claim C2: in the chipscale branch the coefficient pair is selected by the
first of eight ascending thresholds the rounded ratio is less-than-or-equal
to; the 5th, 6th and 7th thresholds are the non-chipscale constants
`TSL2561_K5T = 0x0138`, `TSL2561_K6T = 0x019A`, `TSL2561_K7T = 0x029A`
(`K5T` differing from `K5C = 0x014D`), and a ratio beyond the 7th threshold
yields `b = 0`, `m = 0`, which produces zero illuminance. -/
theorem c2_cs_thresholds (ratio c0 c1 : Nat) :
    (ratio ≤ TSL2561_K1C → csLookup ratio = (TSL2561_B1C, TSL2561_M1C)) ∧
    (TSL2561_K1C < ratio → ratio ≤ TSL2561_K2C → csLookup ratio = (TSL2561_B2C, TSL2561_M2C)) ∧
    (TSL2561_K2C < ratio → ratio ≤ TSL2561_K3C → csLookup ratio = (TSL2561_B3C, TSL2561_M3C)) ∧
    (TSL2561_K3C < ratio → ratio ≤ TSL2561_K4C → csLookup ratio = (TSL2561_B4C, TSL2561_M4C)) ∧
    (TSL2561_K4C < ratio → ratio ≤ 0x0138 → csLookup ratio = (TSL2561_B5C, TSL2561_M5C)) ∧
    (0x0138 < ratio → ratio ≤ 0x019A → csLookup ratio = (TSL2561_B6C, TSL2561_M6C)) ∧
    (0x019A < ratio → ratio ≤ 0x029A → csLookup ratio = (TSL2561_B7C, TSL2561_M7C)) ∧
    (0x029A < ratio → csLookup ratio = (0, 0)) ∧
    (TSL2561_K5T = 0x0138 ∧ TSL2561_K6T = 0x019A ∧ TSL2561_K7T = 0x029A ∧
      TSL2561_K5T ≠ TSL2561_K5C) ∧
    finishLux c0 c1 0 0 = 0 := by
  have hz : finishLux c0 c1 0 0 = 0 := by
    simp [finishLux, UINT32_MOD, LUX_SCALE]
  refine ⟨?_, ?_, ?_, ?_, ?_, ?_, ?_, ?_, by decide, hz⟩ <;>
    · intros
      simp only [csLookup, TSL2561_K1C, TSL2561_K2C, TSL2561_K3C, TSL2561_K4C,
        TSL2561_K5T, TSL2561_K6T, TSL2561_K7T, TSL2561_K8C] at *
      split_ifs <;> first | rfl | decide | omega

/-- Witness for C2 at ratio 0x0140 (between `K5C = 0x014D` and
`K5T = 0x0138`, so the 6th chipscale pair is selected). -/
theorem c2_cs_thresholds_witness :
    csLookup 0x0140 = (TSL2561_B6C, TSL2561_M6C) ∧ finishLux 3 4 0 0 = 0 := by
  obtain ⟨a1, a2, a3, a4, a5, a6, a7, a8, a9, a10⟩ := c2_cs_thresholds 0x0140 3 4
  exact ⟨a6 (by decide) (by decide), a10⟩

/-- Claim C3 counterexample: a session whose package type is
`TSL2561_DEVICE_TYPE_TSL2560CS = 0b0000` — a chipscale family member per the
header — is routed to the non-chipscale (`case 0: default:`) coefficient set,
and at `(visible, infrared) = (1000, 100)` (402 ms, 16x) this produces a
different illuminance (31) than the chipscale set does for the
`TSL2561CS` type (32). -/
theorem c3_counterexample :
    tsl2561_compute_lux
        (some ⟨true, false, TSL2561_DEVICE_TYPE_TSL2560CS, TSL2561_INTEGRATION_TIME_402MS,
               TSL2561_GAIN_16X⟩) 1000 100 = 31 ∧
    tsl2561_compute_lux
        (some ⟨true, false, TSL2561_DEVICE_TYPE_TSL2561CS, TSL2561_INTEGRATION_TIME_402MS,
               TSL2561_GAIN_16X⟩) 1000 100 = 32 ∧
    selectBM TSL2561_DEVICE_TYPE_TSL2560CS 47 = (TSL2561_B1T, TSL2561_M1T) ∧
    (TSL2561_B1T, TSL2561_M1T) ≠ (TSL2561_B1C, TSL2561_M1C) :=
  ⟨by decide, by decide, by decide, by decide⟩

/-- Claim C3 as amended: `tsl2561_compute_lux` uses the chipscale coefficient
set only for `device_type = 1` (`TSL2561CS`); `TSL2560CS` (0b0000), the two
T/FN/CL types, and the invalid sentinel all use the shared non-chipscale
set. -/
theorem c3_table_selection (ratio : Nat) :
    selectBM TSL2561_DEVICE_TYPE_TSL2561CS ratio = csLookup ratio ∧
    selectBM TSL2561_DEVICE_TYPE_TSL2560CS ratio = tLookup ratio ∧
    selectBM TSL2561_DEVICE_TYPE_TSL2560T_FN_CL ratio = tLookup ratio ∧
    selectBM TSL2561_DEVICE_TYPE_TSL2561T_FN_CL ratio = tLookup ratio ∧
    selectBM TSL2561_DEVICE_TYPE_INVALID ratio = tLookup ratio :=
  ⟨rfl, rfl, rfl, rfl, rfl⟩

/-- Claim C6: the channel ratio is defined as 0 when the scaled channel 0 is
zero (so the division is never reached with a zero divisor), otherwise it is
the 10-fractional-bit quotient; rounding adds 1 and shifts right by one
(i.e. divides by 2); and an initialized session computes exactly 0 lux from
`visible = 0, infrared = 0`. -/
theorem c6_ratio_guard :
    (∀ c1, ratio1Of 0 c1 = 0) ∧
    (∀ c0 c1, c0 ≠ 0 →
      ratio1Of c0 c1 = ((c1 <<< (RATIO_SCALE + 1)) % UINT32_MOD) / c0) ∧
    (∀ c0 c1, roundedRatioOf c0 c1 = ((ratio1Of c0 c1 + 1) % UINT32_MOD) / 2) ∧
    (∀ info : Tsl2561Info, info.init = true → tsl2561_compute_lux (some info) 0 0 = 0) := by
  refine ⟨?_, ?_, ?_, ?_⟩
  · intro c1; simp [ratio1Of]
  · intro c0 c1 h; simp [ratio1Of, h]
  · intro c0 c1; simp [roundedRatioOf, Nat.shiftRight_eq_div_pow]
  · intro info h
    simp [tsl2561_compute_lux, _is_init, h, luxTail, roundedRatioOf, ratio1Of,
      finishLux, UINT32_MOD, CH_SCALE, LUX_SCALE]

/-- Witness for C6 at concrete inputs. -/
theorem c6_ratio_guard_witness :
    ratio1Of 0 7 = 0 ∧ tsl2561_compute_lux (some infoReadyT) 0 0 = 0 :=
  ⟨c6_ratio_guard.1 7, c6_ratio_guard.2.2.2 infoReadyT rfl⟩

/-- Claim C5 counterexample: for the initialized session with the 13 ms
integration setting and 1x gain, the channel-scaling multiply at
`visible = 65535, infrared = 0` is `65535 * (0x7517 <<< 4) = 31430586000`,
which exceeds 2^32, so the multiply steps do not all fit in 32-bit unsigned
intermediate precision as claimed. -/
theorem c5_counterexample :
    (⟨true, false, TSL2561_DEVICE_TYPE_TSL2561T_FN_CL, TSL2561_INTEGRATION_TIME_13MS,
      TSL2561_GAIN_1X⟩ : Tsl2561Info).init = true ∧
    ¬ multipliesFit
        ⟨true, false, TSL2561_DEVICE_TYPE_TSL2561T_FN_CL, TSL2561_INTEGRATION_TIME_13MS,
         TSL2561_GAIN_1X⟩ 65535 0 :=
  ⟨rfl, by decide⟩

/-- Claim C5 as amended: the multiply steps of `tsl2561_compute_lux` all fit
below 2^32 for all 16-bit inputs whenever the gain is not the 1x setting, or
the integration time is neither the 13 ms nor the 101 ms setting (the scaling
constant is then at most 0x7517); with 1x gain and the 13 ms or 101 ms
scaling the channel-scaling product can wrap, as the counterexample shows. -/
theorem c5_no_overflow (info : Tsl2561Info) (visible infrared : Nat)
    (hv : visible < 65536) (hi : infrared < 65536)
    (h : info.gain ≠ TSL2561_GAIN_1X ∨
         (info.integration_time ≠ TSL2561_INTEGRATION_TIME_13MS ∧
          info.integration_time ≠ TSL2561_INTEGRATION_TIME_101MS)) :
    multipliesFit info visible infrared := by
  have hs : scaleFor info.integration_time info.gain ≤ 29975 := by
    rcases h with hg | ⟨h1, h2⟩
    · by_cases hA : info.integration_time = TSL2561_INTEGRATION_TIME_13MS
      · simp [scaleFor, hA, hg, CH_SCALE_TINT0]
      · by_cases hB : info.integration_time = TSL2561_INTEGRATION_TIME_101MS
        · simp [scaleFor, hA, hB, hg, TSL2561_INTEGRATION_TIME_13MS,
            TSL2561_INTEGRATION_TIME_101MS, CH_SCALE_TINT0, CH_SCALE_TINT1]
        · simp [scaleFor, hA, hB, hg, CH_SCALE]
    · by_cases hg : info.gain = TSL2561_GAIN_1X
      · simp [scaleFor, h1, h2, hg, CH_SCALE, UINT32_MOD]
      · simp [scaleFor, h1, h2, hg, CH_SCALE]
  have hvi : visible + infrared ≤ 131070 := by omega
  have hi6 : infrared ≤ 65535 := by omega
  have hA : (visible + infrared) * scaleFor info.integration_time info.gain ≤ 3928823250 := by
    calc (visible + infrared) * scaleFor info.integration_time info.gain
        ≤ 131070 * 29975 := Nat.mul_le_mul hvi hs
      _ = 3928823250 := by norm_num
  have hB : infrared * scaleFor info.integration_time info.gain ≤ 1964411625 := by
    calc infrared * scaleFor info.integration_time info.gain
        ≤ 65535 * 29975 := Nat.mul_le_mul hi6 hs
      _ = 1964411625 := by norm_num
  have hch0 : (((visible + infrared) * scaleFor info.integration_time info.gain) % UINT32_MOD)
      >>> CH_SCALE ≤ 3836741 := by
    rw [Nat.shiftRight_eq_div_pow]
    calc (((visible + infrared) * scaleFor info.integration_time info.gain) % UINT32_MOD)
          / 2 ^ CH_SCALE
        ≤ 3928823250 / 2 ^ CH_SCALE :=
          Nat.div_le_div_right (le_trans (Nat.mod_le _ _) hA)
      _ ≤ 3836741 := by norm_num [CH_SCALE]
  have hch1 : ((infrared * scaleFor info.integration_time info.gain) % UINT32_MOD)
      >>> CH_SCALE ≤ 1918370 := by
    rw [Nat.shiftRight_eq_div_pow]
    calc ((infrared * scaleFor info.integration_time info.gain) % UINT32_MOD) / 2 ^ CH_SCALE
        ≤ 1964411625 / 2 ^ CH_SCALE :=
          Nat.div_le_div_right (le_trans (Nat.mod_le _ _) hB)
      _ ≤ 1918370 := by norm_num [CH_SCALE]
  dsimp only [multipliesFit]
  refine ⟨lt_of_le_of_lt hA (by norm_num [UINT32_MOD]),
          lt_of_le_of_lt hB (by norm_num [UINT32_MOD]), ?_, ?_⟩
  · exact lt_of_le_of_lt (Nat.mul_le_mul hch0 (selectBM_le _ _).1) (by norm_num [UINT32_MOD])
  · exact lt_of_le_of_lt (Nat.mul_le_mul hch1 (selectBM_le _ _).2) (by norm_num [UINT32_MOD])

/-- Witness for the amended C5 at 16x gain, 402 ms, inputs (65535, 65535). -/
theorem c5_no_overflow_witness :
    (65535 : Nat) < 65536 ∧ multipliesFit infoReadyT 65535 65535 :=
  ⟨by decide,
   c5_no_overflow infoReadyT 65535 65535 (by decide) (by decide) (Or.inl (by decide))⟩

/-- Claim C10: `tsl2561_compute_lux` returns exactly 0 for a NULL session
pointer or a session whose `init` flag is false, for all inputs (its
`uint32_t` return carries no error channel). -/
theorem c10_uninitialized_zero (oi : Option Tsl2561Info) (visible infrared : Nat)
    (h : oi = none ∨ ∃ info, oi = some info ∧ info.init = false) :
    tsl2561_compute_lux oi visible infrared = 0 := by
  rcases h with rfl | ⟨info, rfl, hinit⟩
  · simp [tsl2561_compute_lux, _is_init]
  · simp [tsl2561_compute_lux, _is_init, hinit]

/-- Witness for C10: NULL session and uninitialized session at inputs (3, 4). -/
theorem c10_uninitialized_zero_witness :
    tsl2561_compute_lux none 3 4 = 0 ∧ tsl2561_compute_lux (some infoFresh) 3 4 = 0 :=
  ⟨c10_uninitialized_zero none 3 4 (Or.inl rfl),
   c10_uninitialized_zero (some infoFresh) 3 4 (Or.inr ⟨infoFresh, rfl, rfl⟩)⟩

/-- Claim C9: for an initialized session, `tsl2561_compute_lux` scales the
channels with the constant the spec describes — 0x7517 for the 13 ms setting,
0x0FE7 for the 101 ms setting, `1 <<< 10` for the 402 ms or any unrecognized
setting, left-shifted by 4 exactly when the gain is the 1x setting — and
reconstructs `channel0 = ((visible + infrared) * scale) >> 10` and
`channel1 = (infrared * scale) >> 10` in 32-bit arithmetic. -/
theorem c9_channel_scaling (info : Tsl2561Info) (visible infrared : Nat)
    (h : info.init = true) :
    tsl2561_compute_lux (some info) visible infrared =
      luxTail info.device_type
        ((((visible + infrared) * specChannelScale info.integration_time info.gain)
            % UINT32_MOD) >>> 10)
        (((infrared * specChannelScale info.integration_time info.gain)
            % UINT32_MOD) >>> 10) := by
  have hsc : scaleFor info.integration_time info.gain =
      specChannelScale info.integration_time info.gain := by
    by_cases hA : info.integration_time = TSL2561_INTEGRATION_TIME_13MS
    · by_cases hg : info.gain = TSL2561_GAIN_1X <;>
        simp [scaleFor, specChannelScale, hA, hg, CH_SCALE_TINT0, CH_SCALE, UINT32_MOD]
    · by_cases hB : info.integration_time = TSL2561_INTEGRATION_TIME_101MS
      · by_cases hg : info.gain = TSL2561_GAIN_1X <;>
          simp [scaleFor, specChannelScale, hA, hB, hg, TSL2561_INTEGRATION_TIME_13MS,
            TSL2561_INTEGRATION_TIME_101MS, CH_SCALE_TINT0, CH_SCALE_TINT1, CH_SCALE,
            UINT32_MOD]
      · by_cases hg : info.gain = TSL2561_GAIN_1X <;>
          simp [scaleFor, specChannelScale, hA, hB, hg, CH_SCALE, UINT32_MOD]
  simp only [tsl2561_compute_lux, _is_init, h, if_true, CH_SCALE, hsc]

/-- Witness for C9 at the 402 ms / 16x session and inputs (1000, 100). -/
theorem c9_channel_scaling_witness :
    infoReadyT.init = true ∧
    tsl2561_compute_lux (some infoReadyT) 1000 100 =
      luxTail infoReadyT.device_type
        ((((1000 + 100) * specChannelScale infoReadyT.integration_time infoReadyT.gain)
            % UINT32_MOD) >>> 10)
        (((100 * specChannelScale infoReadyT.integration_time infoReadyT.gain)
            % UINT32_MOD) >>> 10) :=
  ⟨rfl, c9_channel_scaling infoReadyT 1000 100 rfl⟩

/-- Claim C7: `tsl2561_read` computes its blocking delay from the current
integration time — 15 ms for the 13 ms setting, 120 ms for the 101 ms
setting, 450 ms for the 402 ms setting and for any unrecognized value — and
passes `(delay - 1) / tick_ms + 1` ticks to `vTaskDelay`, which equals the
ceiling of `delay / tick_ms` and hence covers at least the documented
minimum delay. -/
theorem c7_read_delay :
    readDelayMs TSL2561_INTEGRATION_TIME_13MS = 15 ∧
    readDelayMs TSL2561_INTEGRATION_TIME_101MS = 120 ∧
    readDelayMs TSL2561_INTEGRATION_TIME_402MS = 450 ∧
    (∀ it, it ≠ TSL2561_INTEGRATION_TIME_13MS → it ≠ TSL2561_INTEGRATION_TIME_101MS →
      readDelayMs it = 450) ∧
    (∀ it t, 0 < t →
      (readDelayMs it - 1) / t + 1 = (readDelayMs it + t - 1) / t ∧
      readDelayMs it ≤ ((readDelayMs it - 1) / t + 1) * t) ∧
    (∀ (bus : SmbusModel) (t : Nat) (info : Tsl2561Info), info.init = true →
      (_power_up bus (some info)).err = ESP_OK →
      Event.taskDelay ((readDelayMs info.integration_time - 1) / t + 1) ∈
        (tsl2561_read bus t (some info)).events) := by
  refine ⟨by decide, by decide, by decide, ?_, ?_, ?_⟩
  · intro it h1 h2
    simp [readDelayMs, h1, h2]
  · intro it t ht
    refine ceil_div_helper _ t ht ?_
    unfold readDelayMs
    split_ifs <;> decide
  · intro bus t info hinit hpu
    by_cases hp : info.powered
    · simp only [tsl2561_read, _is_init, hinit, _power_up, hp, Bool.not_true, if_true]
      split_ifs <;> simp_all
    · by_cases hw : bus.write_byte (REG_CONTROL ||| SMB_COMMAND) TSL2561_CONTROL_POWER_UP
          = ESP_OK
      · simp only [tsl2561_read, _is_init, hinit, _power_up, hp, hw, Bool.not_false, if_true]
        split_ifs <;> simp_all
      · simp [_power_up, hp, hw] at hpu

/-- Witness for C7: for the 402 ms fixture session on the all-success
transport with a 10 ms tick, the 45-tick delay request appears in the trace,
and the tick count is the ceiling of 450 / 10. -/
theorem c7_read_delay_witness :
    infoReady.init = true ∧ (0 : Nat) < 10 ∧
    Event.taskDelay ((readDelayMs infoReady.integration_time - 1) / 10 + 1) ∈
      (tsl2561_read busAllOK 10 (some infoReady)).events ∧
    (readDelayMs infoReady.integration_time - 1) / 10 + 1 =
      (readDelayMs infoReady.integration_time + 10 - 1) / 10 := by
  refine ⟨rfl, by decide, ?_, ?_⟩
  · exact c7_read_delay.2.2.2.2.2 busAllOK 10 infoReady rfl (by decide)
  · exact (c7_read_delay.2.2.2.2.1 infoReady.integration_time 10 (by decide)).1

/-- Whenever `tsl2561_read` reports success, the resulting session has
`powered = false` (the final `_power_down` succeeded). -/
theorem read_ok_unpowered (bus : SmbusModel) (tick : Nat) (oi : Option Tsl2561Info)
    (i2 : Tsl2561Info) (he : (tsl2561_read bus tick oi).err = ESP_OK)
    (hi : (tsl2561_read bus tick oi).info = some i2) : i2.powered = false := by
  by_cases hI : _is_init oi
  · by_cases hpu : (_power_up bus oi).err = ESP_OK
    · rcases hpi : (_power_up bus oi).info with _ | infoX
      · simp [tsl2561_read, hI, hpu, hpi] at he
        exact absurd he (by decide)
      · by_cases h0 : (bus.read_word (REG_DATA0LOW ||| SMB_COMMAND ||| SMB_WORD)).1 = ESP_OK
        · by_cases h1 : (bus.read_word (REG_DATA1LOW ||| SMB_COMMAND ||| SMB_WORD)).1 = ESP_OK
          · simp only [tsl2561_read, hI, hpu, hpi, h0, h1, if_true] at he hi
            exact power_down_ok_unpowered bus (some infoX) i2 he hi
          · simp [tsl2561_read, hI, hpu, hpi, h0, h1] at he
        · simp [tsl2561_read, hI, hpu, hpi, h0] at he
    · simp [tsl2561_read, hI, hpu] at he
  · simp [tsl2561_read, hI] at he
    exact absurd he (by decide)

/-- Whenever `tsl2561_set_integration_time_and_gain` reports success, the
resulting session has `powered = false` (the trailing `_power_down`
succeeded, since a power-down error would take precedence in the result). -/
theorem configure_ok_unpowered (bus : SmbusModel) (oi : Option Tsl2561Info) (it g : Nat)
    (i2 : Tsl2561Info)
    (he : (tsl2561_set_integration_time_and_gain bus oi it g).err = ESP_OK)
    (hi : (tsl2561_set_integration_time_and_gain bus oi it g).info = some i2) :
    i2.powered = false := by
  have key : ∀ (oi2 : Option Tsl2561Info) (e2 : Int),
      (if (_power_down bus oi2).err ≠ ESP_OK then (_power_down bus oi2).err else e2) = ESP_OK →
      (_power_down bus oi2).info = some i2 → i2.powered = false := by
    intro oi2 e2 h1 h2
    by_cases hpd : (_power_down bus oi2).err = ESP_OK
    · exact power_down_ok_unpowered bus oi2 i2 hpd h2
    · simp [hpd] at h1
  by_cases hI : _is_init oi
  · by_cases hpu : (_power_up bus oi).err = ESP_OK
    · simp only [tsl2561_set_integration_time_and_gain, hI, hpu, if_true] at he hi
      exact key _ _ he hi
    · simp [tsl2561_set_integration_time_and_gain, hI, hpu] at he
  · simp [tsl2561_set_integration_time_and_gain, hI] at he
    exact absurd he (by decide)

/-- Claim C8: whenever `tsl2561_read` returns success the session's `powered`
flag is false afterwards; whenever `tsl2561_set_integration_time_and_gain`
returns success the flag is likewise false; hence a configure followed
immediately by a successful read leaves the device powered down. -/
theorem c8_power_symmetry (bus busR : SmbusModel) (tick it g : Nat)
    (oi : Option Tsl2561Info) :
    (∀ i2, (tsl2561_read busR tick oi).err = ESP_OK →
      (tsl2561_read busR tick oi).info = some i2 → i2.powered = false) ∧
    (∀ i2, (tsl2561_set_integration_time_and_gain bus oi it g).err = ESP_OK →
      (tsl2561_set_integration_time_and_gain bus oi it g).info = some i2 →
      i2.powered = false) ∧
    (∀ i3, (tsl2561_set_integration_time_and_gain bus oi it g).err = ESP_OK →
      (tsl2561_read busR tick
        (tsl2561_set_integration_time_and_gain bus oi it g).info).err = ESP_OK →
      (tsl2561_read busR tick
        (tsl2561_set_integration_time_and_gain bus oi it g).info).info = some i3 →
      i3.powered = false) :=
  ⟨fun i2 => read_ok_unpowered busR tick oi i2,
   fun i2 => configure_ok_unpowered bus oi it g i2,
   fun i3 _ => read_ok_unpowered busR tick _ i3⟩

/-- Witness for C8: on an all-success transport, a read from an initialized,
unpowered session succeeds and leaves `powered = false`. -/
theorem c8_power_symmetry_witness :
    (tsl2561_read busAllOK 10 (some infoReady)).err = ESP_OK ∧
    (tsl2561_read busAllOK 10 (some infoReady)).info = some infoReady ∧
    infoReady.powered = false := by
  refine ⟨by decide, by decide, ?_⟩
  exact (c8_power_symmetry busAllOK busAllOK 10 TSL2561_INTEGRATION_TIME_402MS
    TSL2561_GAIN_1X (some infoReady)).1 infoReady (by decide) (by decide)

/-- Claim C4: for an initialized session, if the power-up step fails then no
timing-register write is attempted and the power-up error is returned; if
power-up succeeds, the power-down write is attempted regardless of the
timing write's outcome, and when both the timing write and the power-down
fail, the power-down error — not the write error — is returned. -/
theorem c4_error_precedence (bus : SmbusModel) (info : Tsl2561Info) (it g : Nat)
    (hinit : info.init = true) :
    ((_power_up bus (some info)).err ≠ ESP_OK →
      (tsl2561_set_integration_time_and_gain bus (some info) it g).err =
        (_power_up bus (some info)).err ∧
      ∀ v, Event.wByte (REG_TIMING ||| SMB_COMMAND) v ∉
        (tsl2561_set_integration_time_and_gain bus (some info) it g).events) ∧
    ((_power_up bus (some info)).err = ESP_OK →
      Event.wByte (REG_CONTROL ||| SMB_COMMAND) TSL2561_CONTROL_POWER_DOWN ∈
        (tsl2561_set_integration_time_and_gain bus (some info) it g).events ∧
      (bus.write_byte (REG_TIMING ||| SMB_COMMAND) (it ||| g) ≠ ESP_OK →
        bus.write_byte (REG_CONTROL ||| SMB_COMMAND) TSL2561_CONTROL_POWER_DOWN ≠ ESP_OK →
        (tsl2561_set_integration_time_and_gain bus (some info) it g).err =
          bus.write_byte (REG_CONTROL ||| SMB_COMMAND) TSL2561_CONTROL_POWER_DOWN)) := by
  constructor
  · intro hpu
    by_cases hp : info.powered
    · exfalso
      simp [_power_up, hp] at hpu
    · by_cases hw : bus.write_byte (REG_CONTROL ||| SMB_COMMAND) TSL2561_CONTROL_POWER_UP
          = ESP_OK
      · exfalso
        simp [_power_up, hp, hw] at hpu
      · have hev : (tsl2561_set_integration_time_and_gain bus (some info) it g).events =
            [Event.wByte (REG_CONTROL ||| SMB_COMMAND) TSL2561_CONTROL_POWER_UP] := by
          simp [tsl2561_set_integration_time_and_gain, _is_init, hinit, _power_up, hp, hw]
        constructor
        · simp [tsl2561_set_integration_time_and_gain, _is_init, hinit, _power_up, hp, hw]
        · intro v hmem
          rw [hev, List.mem_singleton] at hmem
          injection hmem with hr hv
          exact absurd hr (by decide)
  · intro hpu
    by_cases hp : info.powered
    · by_cases hwT : bus.write_byte (REG_TIMING ||| SMB_COMMAND) (it ||| g) = ESP_OK
      · by_cases hwD : bus.write_byte (REG_CONTROL ||| SMB_COMMAND) TSL2561_CONTROL_POWER_DOWN
            = ESP_OK
        · refine ⟨?_, fun hwT2 _ => absurd hwT hwT2⟩
          simp [tsl2561_set_integration_time_and_gain, _is_init, hinit, _power_up, hp,
            _set_integration_time_and_gain, hwT, _power_down, hwD]
        · refine ⟨?_, fun hwT2 _ => absurd hwT hwT2⟩
          simp [tsl2561_set_integration_time_and_gain, _is_init, hinit, _power_up, hp,
            _set_integration_time_and_gain, hwT, _power_down, hwD]
      · by_cases hwD : bus.write_byte (REG_CONTROL ||| SMB_COMMAND) TSL2561_CONTROL_POWER_DOWN
            = ESP_OK
        · refine ⟨?_, fun _ hwD2 => absurd hwD hwD2⟩
          simp [tsl2561_set_integration_time_and_gain, _is_init, hinit, _power_up, hp,
            _set_integration_time_and_gain, hwT, _power_down, hwD]
        · refine ⟨?_, fun _ _ => ?_⟩ <;>
            simp [tsl2561_set_integration_time_and_gain, _is_init, hinit, _power_up, hp,
              _set_integration_time_and_gain, hwT, _power_down, hwD]
    · by_cases hw : bus.write_byte (REG_CONTROL ||| SMB_COMMAND) TSL2561_CONTROL_POWER_UP
          = ESP_OK
      · by_cases hwT : bus.write_byte (REG_TIMING ||| SMB_COMMAND) (it ||| g) = ESP_OK
        · by_cases hwD : bus.write_byte (REG_CONTROL ||| SMB_COMMAND)
              TSL2561_CONTROL_POWER_DOWN = ESP_OK
          · refine ⟨?_, fun hwT2 _ => absurd hwT hwT2⟩
            simp [tsl2561_set_integration_time_and_gain, _is_init, hinit, _power_up, hp, hw,
              _set_integration_time_and_gain, hwT, _power_down, hwD]
          · refine ⟨?_, fun hwT2 _ => absurd hwT hwT2⟩
            simp [tsl2561_set_integration_time_and_gain, _is_init, hinit, _power_up, hp, hw,
              _set_integration_time_and_gain, hwT, _power_down, hwD]
        · by_cases hwD : bus.write_byte (REG_CONTROL ||| SMB_COMMAND)
              TSL2561_CONTROL_POWER_DOWN = ESP_OK
          · refine ⟨?_, fun _ hwD2 => absurd hwD hwD2⟩
            simp [tsl2561_set_integration_time_and_gain, _is_init, hinit, _power_up, hp, hw,
              _set_integration_time_and_gain, hwT, _power_down, hwD]
          · refine ⟨?_, fun _ _ => ?_⟩ <;>
              simp [tsl2561_set_integration_time_and_gain, _is_init, hinit, _power_up, hp, hw,
                _set_integration_time_and_gain, hwT, _power_down, hwD]
      · exfalso
        simp [_power_up, hp, hw] at hpu

/-- Witness for C4: on an all-failing transport the power-up step fails and
its error is the result of the configuration call. -/
theorem c4_error_precedence_witness :
    infoReady.init = true ∧
    (_power_up busAllFail (some infoReady)).err ≠ ESP_OK ∧
    (tsl2561_set_integration_time_and_gain busAllFail (some infoReady)
      TSL2561_INTEGRATION_TIME_101MS TSL2561_GAIN_16X).err =
      (_power_up busAllFail (some infoReady)).err := by
  refine ⟨rfl, by decide, ?_⟩
  exact ((c4_error_precedence busAllFail infoReady TSL2561_INTEGRATION_TIME_101MS
    TSL2561_GAIN_16X rfl).1 (by decide)).1

end Tsl2561
